import Mathlib

/-!
Verification of the `Queue` command-queue handle (`src/standard/queue.rs` of
the `ocl` crate) against its specification.

The file has two layers:

* A model of the platform runtime and of the collaborator types
  (`CommandQueueCore`, `ContextCore`, `Device`, the `core::*` primitives),
  whose code is not part of the excerpted source; each such definition is
  marked `Modelled from the spec:` and follows the spec's description of the
  external interface (§6), the reference-counting discipline (§3, §9) and the
  platform primitives.

* A shallow embedding of the `Queue` struct and its methods, translated
  directly from `src/standard/queue.rs`.

Platform resources are tracked in an explicit `PlatformState`: native queues
live in an association list from handle to a creation record carrying a
reference count, and context handle references are a multiset (list) of
context handles.  Fallible platform behaviour (queue creation refusal,
flush/finish/info failures, device version query failure) is supplied by a
`Platform` oracle so that theorems quantify over every platform behaviour.
-/

/-- Modelled from the spec: a platform-reported error (§7 error taxonomy).
The concrete error enumeration lives in the crate's `core::error` module,
outside the excerpted source; only its identity matters here. -/
structure OclError where
  msg : String
deriving DecidableEq

/-- Modelled from the spec: the capability version a device supports
("Capability version: the maximum API/runtime version a device supports").
The concrete `OpenclVersion` type lives in the crate's `core` module. -/
structure OpenclVersion where
  major : Nat
  minor : Nat
deriving DecidableEq

/-- Modelled from the spec: queue property flags ("an optional set of queue
property flags"), a bitfield in the crate's `core` module. -/
abbrev CommandQueueProperties := Nat

/-- Modelled from the spec: a reference-counted handle to a native
command-queue object (`core::CommandQueue`, outside the excerpted source).
The handle itself is just an identity; its reference count lives in
`PlatformState`. -/
structure CommandQueueCore where
  handle : Nat
deriving DecidableEq

/-- Modelled from the spec: a reference-counted handle to a native context
object (`core::Context`, outside the excerpted source). -/
structure ContextCore where
  handle : Nat
deriving DecidableEq

instance instDecEqExcept {α β : Type} [DecidableEq α] [DecidableEq β] :
    DecidableEq (Except α β) :=
  fun a b =>
    match a, b with
    | Except.ok x, Except.ok y =>
        if h : x = y then isTrue (by rw [h])
        else isFalse (fun hc => h (by cases hc; rfl))
    | Except.error x, Except.error y =>
        if h : x = y then isTrue (by rw [h])
        else isFalse (fun hc => h (by cases hc; rfl))
    | Except.ok _, Except.error _ => isFalse (fun hc => Except.noConfusion hc)
    | Except.error _, Except.ok _ => isFalse (fun hc => Except.noConfusion hc)

/-- Modelled from the spec: the device provider — "supplies a device
descriptor and a method to query its supported capability version".  The
outcome of the (fallible) version query is carried as data so that theorems
range over both outcomes.  The concrete `standard::Device` lives outside the
excerpted source. -/
structure Device where
  id : Nat
  versionResult : Except OclError OpenclVersion
deriving DecidableEq

/-- Modelled from the spec: `Device::version()`, the fallible device
capability-version query. -/
def Device.version (d : Device) : Except OclError OpenclVersion :=
  d.versionResult

/-- Modelled from the spec: the context provider — "supplies a live,
reference-countable context handle and a method to clone its native
reference".  The concrete `standard::Context` lives outside the excerpted
source. -/
structure Context where
  obj_core : ContextCore
deriving DecidableEq

/-- Modelled from the spec: `Context::core()`, returning the context's native
handle. -/
def Context.core (c : Context) : ContextCore :=
  c.obj_core

/-- `CommandQueueInfo`: the queue attribute kinds queried through
`core::get_command_queue_info` (spec §4.1 `info`). -/
inductive CommandQueueInfo where
  | context
  | device
  | referenceCount
  | properties
deriving DecidableEq

/-- `CommandQueueInfoResult`: the tagged result of an info query; a platform
failure is carried inside the result (`error` variant), matching the crate's
`CommandQueueInfoResult::Error`. -/
inductive CommandQueueInfoResult where
  | context (c : ContextCore)
  | device (id : Nat)
  | referenceCount (n : Nat)
  | properties (p : CommandQueueProperties)
  | error (e : OclError)
deriving DecidableEq

/-- Modelled from the spec: the platform's record of one live native queue —
the context and device it was created for, its property flags, and its
reference count (§3: "a reference-counted handle to the platform's
command-queue object"). -/
structure QueueRecord where
  ctx : Nat
  dev : Nat
  props : CommandQueueProperties
  rc : Nat
deriving DecidableEq

/-- Modelled from the spec: the platform's resource state — the allocation
counter for fresh queue handles, the live native queues (association list
handle ↦ record), and the multiset of outstanding context handle references
(one entry per shared reference; §9 reference-counted native resource). -/
structure PlatformState where
  nextId : Nat
  queues : List (Nat × QueueRecord)
  ctxRefs : List Nat
deriving DecidableEq

/-- Modelled from the spec: the platform's fallible behaviour, supplied as an
oracle so that statements quantify over every platform (§6 platform runtime,
§7 error taxonomy): whether queue creation is refused for a given
(context, device, properties) triple, and whether flush / finish / info calls
on a given handle fail. -/
structure Platform where
  createErr : Nat → Nat → CommandQueueProperties → Option OclError
  flushErr : Nat → Option OclError
  finishErr : Nat → Option OclError
  infoErr : Nat → CommandQueueInfo → Option OclError

/-- First-matching-key lookup in the live-queue association list. -/
def lookupQueue : List (Nat × QueueRecord) → Nat → Option QueueRecord
  | [], _ => none
  | (k, r) :: rest, h => if k = h then some r else lookupQueue rest h

/-- Increment the reference count of the first record with the given handle. -/
def incRc : List (Nat × QueueRecord) → Nat → List (Nat × QueueRecord)
  | [], _ => []
  | (k, r) :: rest, h =>
    if k = h then (k, ⟨r.ctx, r.dev, r.props, r.rc + 1⟩) :: rest
    else (k, r) :: incRc rest h

/-- Decrement the reference count of the first record with the given handle,
removing the record (native object destroyed) when the count reaches zero. -/
def decRc : List (Nat × QueueRecord) → Nat → List (Nat × QueueRecord)
  | [], _ => []
  | (k, r) :: rest, h =>
    if k = h then
      if r.rc ≤ 1 then rest else (k, ⟨r.ctx, r.dev, r.props, r.rc - 1⟩) :: rest
    else (k, r) :: decRc rest h

/-- Modelled from the spec: `Clone` for the native queue handle — "cloning a
QueueHandle increments the reference count of the underlying native object
rather than duplicating it".  Returns the *same* handle and bumps its count. -/
def CommandQueueCore.clone (c : CommandQueueCore) (s : PlatformState) :
    CommandQueueCore × PlatformState :=
  (c, ⟨s.nextId, incRc s.queues c.handle, s.ctxRefs⟩)

/-- Modelled from the spec: dropping a native queue handle reference —
decrements the count; the platform's destroy call fires only at zero (§9). -/
def CommandQueueCore.release (c : CommandQueueCore) (s : PlatformState) :
    PlatformState :=
  ⟨s.nextId, decRc s.queues c.handle, s.ctxRefs⟩

/-- Modelled from the spec: `Clone` for the native context handle — a shared
reference; one more outstanding reference to the same context. -/
def ContextCore.clone (c : ContextCore) (s : PlatformState) :
    ContextCore × PlatformState :=
  (c, ⟨s.nextId, s.queues, c.handle :: s.ctxRefs⟩)

/-- Modelled from the spec: the platform primitive
"create-queue(context, device, properties) → native handle or error" (§6).
On refusal nothing is allocated; on success a fresh native queue with
reference count 1 is recorded for exactly the given context, device and
property flags.  An absent property set means the platform default (empty
flags). -/
def core.create_command_queue (p : Platform) (s : PlatformState)
    (context : Context) (device : Device)
    (properties : Option CommandQueueProperties) :
    Except OclError CommandQueueCore × PlatformState :=
  match p.createErr context.obj_core.handle device.id (Option.getD properties 0) with
  | some e => (Except.error e, s)
  | none =>
      (Except.ok ⟨s.nextId⟩,
        ⟨s.nextId + 1,
         (s.nextId, ⟨context.obj_core.handle, device.id, Option.getD properties 0, 1⟩)
           :: s.queues,
         s.ctxRefs⟩)

/-- Modelled from the spec: the platform primitive "flush(handle) → success
or error" (§6). -/
def core.flush (p : Platform) (cq : CommandQueueCore) : Except OclError Unit :=
  match p.flushErr cq.handle with
  | some e => Except.error e
  | none => Except.ok ()

/-- Modelled from the spec: the platform primitive "finish(handle) → success
or error" (§6). -/
def core.finish (p : Platform) (cq : CommandQueueCore) : Except OclError Unit :=
  match p.finishErr cq.handle with
  | some e => Except.error e
  | none => Except.ok ()

/-- The error the platform reports for an info query on a handle it does not
know.  Modelled from the spec (§4.1 `info` failure cases). -/
def invalidQueueError : OclError :=
  ⟨"InvalidCommandQueue"⟩

/-- Modelled from the spec: the platform primitive
"get-queue-info(handle, kind) → tagged result or error" (§6): reports the
queue's associated context, associated device, current reference count, or
active property flags, from the platform's own record of the queue; a
communication failure (oracle) or an unknown handle yields the error
variant. -/
def core.get_command_queue_info (p : Platform) (s : PlatformState)
    (cq : CommandQueueCore) (info_kind : CommandQueueInfo) :
    CommandQueueInfoResult :=
  match p.infoErr cq.handle info_kind with
  | some e => CommandQueueInfoResult.error e
  | none =>
      match lookupQueue s.queues cq.handle with
      | none => CommandQueueInfoResult.error invalidQueueError
      | some r =>
          match info_kind with
          | CommandQueueInfo.context => CommandQueueInfoResult.context ⟨r.ctx⟩
          | CommandQueueInfo.device => CommandQueueInfoResult.device r.dev
          | CommandQueueInfo.referenceCount => CommandQueueInfoResult.referenceCount r.rc
          | CommandQueueInfo.properties => CommandQueueInfoResult.properties r.props

/-- The `Queue` struct of `src/standard/queue.rs`, field for field:
the native queue handle, the cloned native context handle, the owned device
descriptor, and the device version cached at construction. -/
structure Queue where
  obj_core : CommandQueueCore
  context_obj_core : ContextCore
  device : Device
  device_version : OpenclVersion
deriving DecidableEq

/-- `Queue::new(context, device, properties)` from `src/standard/queue.rs`:
creates the native queue via `core::create_command_queue`, propagating a
failure with `try!`; queries `device.version()`, propagating a failure with
`try!` (at which point the just-created `obj_core` binding is dropped,
releasing its reference); on success builds the struct, cloning the
context's native handle. -/
def Queue.new (p : Platform) (s : PlatformState) (context : Context)
    (device : Device) (properties : Option CommandQueueProperties) :
    Except OclError Queue × PlatformState :=
  match core.create_command_queue p s context device properties with
  | (Except.error e, s1) => (Except.error e, s1)
  | (Except.ok obj_core, s1) =>
      match device.version with
      | Except.error e => (Except.error e, CommandQueueCore.release obj_core s1)
      | Except.ok device_version =>
          match ContextCore.clone context.core s1 with
          | (ctx_clone, s2) =>
              (Except.ok ⟨obj_core, ctx_clone, device, device_version⟩, s2)

/-- `Queue::flush` from `src/standard/queue.rs`: delegates to
`core::flush(&self.obj_core)`.  Taking `&self`, the method hands back the
receiver unchanged alongside the platform result. -/
def Queue.flush (p : Platform) (q : Queue) : Except OclError Unit × Queue :=
  (core.flush p q.obj_core, q)

/-- `Queue::finish` from `src/standard/queue.rs`: delegates to
`core::finish(&self.obj_core)`.  Taking `&self`, the method hands back the
receiver unchanged alongside the platform result. -/
def Queue.finish (p : Platform) (q : Queue) : Except OclError Unit × Queue :=
  (core.finish p q.obj_core, q)

/-- `Queue::core_as_ref` from `src/standard/queue.rs` (deprecated alias):
returns `&self.obj_core`. -/
def Queue.core_as_ref (q : Queue) : CommandQueueCore :=
  q.obj_core

/-- `Queue::core` from `src/standard/queue.rs`: returns `&self.obj_core`. -/
def Queue.core (q : Queue) : CommandQueueCore :=
  q.obj_core

/-- `Queue::context_core` from `src/standard/queue.rs`: returns
`&self.context_obj_core`. -/
def Queue.context_core (q : Queue) : ContextCore :=
  q.context_obj_core

/-- `Queue::device` from `src/standard/queue.rs`: returns `&self.device`.
Primed because the plain name is taken by the field projection. -/
def Queue.device' (q : Queue) : Device :=
  q.device

/-- `Queue::device_version` from `src/standard/queue.rs`: returns the cached
`self.device_version`.  Primed because the plain name is taken by the field
projection. -/
def Queue.device_version' (q : Queue) : OpenclVersion :=
  q.device_version

/-- `Queue::info` from `src/standard/queue.rs`: delegates to
`core::get_command_queue_info(&self.obj_core, info_kind)`.  Taking `&self`,
the method hands back the receiver unchanged alongside the result. -/
def Queue.info (p : Platform) (s : PlatformState) (q : Queue)
    (info_kind : CommandQueueInfo) : CommandQueueInfoResult × Queue :=
  (core.get_command_queue_info p s q.obj_core info_kind, q)

/-- Modelled from the spec: the `Debug` rendering of a
`CommandQueueInfoResult` (derived in the crate's `core` module, outside the
excerpted source); the error variant renders as text like any other
variant. -/
def CommandQueueInfoResult.debugStr : CommandQueueInfoResult → String
  | CommandQueueInfoResult.context c => "Context(" ++ toString c.handle ++ ")"
  | CommandQueueInfoResult.device id => "Device(" ++ toString id ++ ")"
  | CommandQueueInfoResult.referenceCount n => "ReferenceCount(" ++ toString n ++ ")"
  | CommandQueueInfoResult.properties pr => "Properties(" ++ toString pr ++ ")"
  | CommandQueueInfoResult.error e => "Error(" ++ e.msg ++ ")"

/-- Modelled from the spec: the body rendering of `Formatter::debug_struct`
(standard library, outside the excerpted source): `name: value` pairs joined
by commas. -/
def renderFields : List (String × String) → String
  | [] => ""
  | [f] => f.1 ++ ": " ++ f.2
  | f :: g :: rest => f.1 ++ ": " ++ f.2 ++ ", " ++ renderFields (g :: rest)

/-- Modelled from the spec: `Formatter::debug_struct(name).field(..)…finish()`
(standard library, outside the excerpted source).  It only writes text; it
never fails of its own accord. -/
def debugStructRender (nm : String) (fields : List (String × String)) : String :=
  nm ++ " \x7b " ++ renderFields fields ++ " \x7d"

/-- The field list built by `Queue::fmt_info` in `src/standard/queue.rs`:
one `.field(label, &self.info(kind))` call for each of the four kinds
Context, Device, ReferenceCount, Properties, in that order. -/
def Queue.fmt_fields (p : Platform) (s : PlatformState) (q : Queue) :
    List (String × CommandQueueInfoResult) :=
  [("Context", (Queue.info p s q CommandQueueInfo.context).1),
   ("Device", (Queue.info p s q CommandQueueInfo.device).1),
   ("ReferenceCount", (Queue.info p s q CommandQueueInfo.referenceCount).1),
   ("Properties", (Queue.info p s q CommandQueueInfo.properties).1)]

/-- `Queue::fmt_info` from `src/standard/queue.rs`: renders the debug-struct
text from the four info queries.  Taking `&self`, the method hands back the
receiver unchanged alongside the produced text; the result is a `String` —
there is no error exit of its own. -/
def Queue.fmt_info (p : Platform) (s : PlatformState) (q : Queue) :
    String × Queue :=
  (debugStructRender ("Queue")
      ((Queue.fmt_fields p s q).map (fun f => (f.1, f.2.debugStr))), q)

/-- `impl Display for Queue` from `src/standard/queue.rs`: `fmt` forwards to
`self.fmt_info(f)`. -/
def Queue.displayFmt (p : Platform) (s : PlatformState) (q : Queue) :
    String × Queue :=
  Queue.fmt_info p s q

/-- `impl AsRef<CommandQueueCore> for Queue` from `src/standard/queue.rs`:
returns `&self.obj_core`. -/
def Queue.as_ref (q : Queue) : CommandQueueCore :=
  q.obj_core

/-- `impl Deref for Queue` from `src/standard/queue.rs`: `deref` returns
`&self.obj_core`. -/
def Queue.deref (q : Queue) : CommandQueueCore :=
  q.obj_core

/-- `#[derive(Clone)]` for `Queue` from `src/standard/queue.rs`: clones each
field in declaration order — the native queue handle (shared, count bumped),
the native context handle (shared, one more reference), and the plain-data
`device` and `device_version` fields. -/
def Queue.clone (q : Queue) (s : PlatformState) : Queue × PlatformState :=
  match CommandQueueCore.clone q.obj_core s with
  | (oc, s1) =>
      match ContextCore.clone q.context_obj_core s1 with
      | (cc, s2) => (⟨oc, cc, q.device, q.device_version⟩, s2)

/-- The substring relation used to state that an inner failure is rendered
inline in diagnostic text. -/
def occursIn (needle hay : String) : Prop :=
  ∃ pre post, hay = pre ++ needle ++ post

/- Sample concrete inputs used by the witness theorems. -/

/-- A platform on which every primitive succeeds. -/
def samplePlatform : Platform :=
  ⟨fun _ _ _ => none, fun _ => none, fun _ => none, fun _ _ => none⟩

/-- A platform that refuses queue creation. -/
def refusingPlatform : Platform :=
  ⟨fun _ _ _ => some ⟨"create failed"⟩, fun _ => none, fun _ => none, fun _ _ => none⟩

/-- A platform whose info queries all fail with a communication error. -/
def errInfoPlatform : Platform :=
  ⟨fun _ _ _ => none, fun _ => none, fun _ => none, fun _ _ => some ⟨"comm failure"⟩⟩

/-- An empty platform state. -/
def sampleState : PlatformState :=
  ⟨0, [], []⟩

/-- A sample context with native handle 5. -/
def sampleContext : Context :=
  ⟨⟨5⟩⟩

/-- A sample device whose version query reports version 1.2. -/
def sampleDevice : Device :=
  ⟨7, Except.ok ⟨1, 2⟩⟩

/-- A sample device whose version query fails. -/
def badDevice : Device :=
  ⟨7, Except.error ⟨"version query failed"⟩⟩

/-- The queue value `Queue::new samplePlatform sampleState sampleContext
sampleDevice none` produces. -/
def sampleQueue : Queue :=
  ⟨⟨0⟩, ⟨5⟩, sampleDevice, ⟨1, 2⟩⟩

/-- The platform state after that construction. -/
def sampleStateAfter : PlatformState :=
  ⟨1, [(0, ⟨5, 7, 0, 1⟩)], [5]⟩

/- Helper lemmas. -/

/-- Bumping a reference count never changes the set of live native queue
handles: `incRc` preserves the key list. -/
theorem incRc_map_fst (l : List (Nat × QueueRecord)) (h : Nat) :
    (incRc l h).map Prod.fst = l.map Prod.fst := by
  induction l with
  | nil => rfl
  | cons a rest ih =>
      cases a with
      | mk k r =>
          by_cases hk : k = h
          · simp [incRc, hk]
          · simp [incRc, hk, ih]

/-- Inversion of a successful `Queue::new`: the platform accepted the
creation, the version query succeeded, and the produced queue and state are
exactly the ones built on the success path. -/
theorem queue_new_ok_inv (p : Platform) (s : PlatformState) (context : Context)
    (device : Device) (properties : Option CommandQueueProperties)
    (q : Queue) (s' : PlatformState)
    (h : Queue.new p s context device properties = (Except.ok q, s')) :
    ∃ v, device.version = Except.ok v ∧
      p.createErr context.obj_core.handle device.id (Option.getD properties 0) = none ∧
      q = ⟨⟨s.nextId⟩, context.obj_core, device, v⟩ ∧
      s' = ⟨s.nextId + 1,
            (s.nextId,
              ⟨context.obj_core.handle, device.id, Option.getD properties 0, 1⟩)
              :: s.queues,
            context.obj_core.handle :: s.ctxRefs⟩ := by
  unfold Queue.new core.create_command_queue at h
  cases hc : p.createErr context.obj_core.handle device.id (Option.getD properties 0) with
  | some e => rw [hc] at h; simp at h
  | none =>
      rw [hc] at h
      cases hv : device.version with
      | error e => rw [hv] at h; simp at h
      | ok v =>
          rw [hv] at h
          simp [ContextCore.clone, Context.core] at h
          exact ⟨v, rfl, rfl, h.1.symm, h.2.symm⟩

/-- C1: every `Queue::new` call that returns `Ok` yields a handle whose
cached `device_version()` equals the value `device.version()` reported at
construction time; `new` never returns a handle whose cached version differs
from the device's reported version at that moment. -/
theorem queue_new_caches_reported_version (p : Platform) (s : PlatformState)
    (context : Context) (device : Device)
    (properties : Option CommandQueueProperties) (q : Queue) (s' : PlatformState)
    (h : Queue.new p s context device properties = (Except.ok q, s')) :
    Device.version device = Except.ok (Queue.device_version' q) := by
  obtain ⟨v, hv, _, hq, _⟩ := queue_new_ok_inv p s context device properties q s' h
  rw [hv, hq]
  rfl

/-- Witness for C1 at a concrete platform, state, context and device. -/
theorem queue_new_caches_reported_version_witness :
    Queue.new samplePlatform sampleState sampleContext sampleDevice none
      = (Except.ok sampleQueue, sampleStateAfter) ∧
    Device.version sampleDevice = Except.ok (Queue.device_version' sampleQueue) :=
  ⟨by decide,
   queue_new_caches_reported_version samplePlatform sampleState sampleContext
     sampleDevice none sampleQueue sampleStateAfter (by decide)⟩

/-- C2: when `Queue::new` fails — the platform refused the creation, or the
creation succeeded and the subsequent device-version query failed — the call
returns that error with no `Queue` value (the `Except` carries no partial
handle), and the platform state keeps exactly the live native queues and
outstanding context references it started with: the queue created before a
failing version query has been released, nothing is leaked. -/
theorem queue_new_failure_no_leak (p : Platform) (s : PlatformState)
    (context : Context) (device : Device)
    (properties : Option CommandQueueProperties) (e : OclError)
    (s' : PlatformState)
    (h : Queue.new p s context device properties = (Except.error e, s')) :
    s'.queues = s.queues ∧ s'.ctxRefs = s.ctxRefs := by
  unfold Queue.new core.create_command_queue at h
  cases hc : p.createErr context.obj_core.handle device.id (Option.getD properties 0) with
  | some e2 =>
      rw [hc] at h
      simp at h
      rw [← h.2]
      exact ⟨rfl, rfl⟩
  | none =>
      rw [hc] at h
      cases hv : device.version with
      | ok v =>
          rw [hv] at h
          simp [ContextCore.clone] at h
      | error e2 =>
          rw [hv] at h
          simp [CommandQueueCore.release] at h
          rw [← h.2]
          constructor
          · show decRc ((s.nextId,
                ⟨context.obj_core.handle, device.id, Option.getD properties 0, 1⟩)
                :: s.queues) s.nextId = s.queues
            simp [decRc]
          · rfl

/-- Witness for C2 on the release path: the version query fails after the
native queue was created, and the final state holds no extra resources. -/
theorem queue_new_failure_no_leak_witness :
    Queue.new samplePlatform sampleState sampleContext badDevice none
      = (Except.error ⟨"version query failed"⟩, (⟨1, [], []⟩ : PlatformState)) ∧
    (⟨1, [], []⟩ : PlatformState).queues = sampleState.queues ∧
    (⟨1, [], []⟩ : PlatformState).ctxRefs = sampleState.ctxRefs :=
  ⟨by decide,
   queue_new_failure_no_leak samplePlatform sampleState sampleContext badDevice
     none ⟨"version query failed"⟩ ⟨1, [], []⟩ (by decide)⟩

/-- C3: `flush()`, `finish()` and `info(kind)` each consist of exactly one
call to the corresponding platform primitive (`core::flush`, `core::finish`,
`core::get_command_queue_info`) applied to the stored native queue handle,
returning that primitive's result unchanged — no retry, no suppression, no
caching. -/
theorem queue_ops_delegate_to_primitives (p : Platform) (s : PlatformState)
    (q : Queue) (k : CommandQueueInfo) :
    (Queue.flush p q).1 = core.flush p q.obj_core ∧
    (Queue.finish p q).1 = core.finish p q.obj_core ∧
    (Queue.info p s q k).1 = core.get_command_queue_info p s q.obj_core k :=
  ⟨rfl, rfl, rfl⟩

/-- C4: a clone of a `Queue` carries the same native queue handle, the same
native context handle, the same device descriptor and the same cached device
version as the original, and cloning allocates no new native queue: the set
of live native queue handles and the allocation counter are unchanged (only
a reference count is bumped). -/
theorem queue_clone_shares_state (q : Queue) (s : PlatformState) :
    (Queue.clone q s).1.obj_core = q.obj_core ∧
    (Queue.clone q s).1.context_obj_core = q.context_obj_core ∧
    (Queue.clone q s).1.device = q.device ∧
    (Queue.clone q s).1.device_version = q.device_version ∧
    ((Queue.clone q s).2.queues).map Prod.fst = s.queues.map Prod.fst ∧
    (Queue.clone q s).2.nextId = s.nextId :=
  ⟨rfl, rfl, rfl, rfl, incRc_map_fst s.queues q.obj_core.handle, rfl⟩

/-- C5: `Queue::new` never builds a handle without its context and device:
on success the handle itself stores the cloned native context handle (one
more outstanding shared reference to the context is recorded) and owns the
device descriptor by value, so both are held by the handle, not borrowed. -/
theorem queue_new_holds_context_and_device (p : Platform) (s : PlatformState)
    (context : Context) (device : Device)
    (properties : Option CommandQueueProperties) (q : Queue) (s' : PlatformState)
    (h : Queue.new p s context device properties = (Except.ok q, s')) :
    q.context_obj_core = Context.core context ∧
    q.device = device ∧
    s'.ctxRefs = (Context.core context).handle :: s.ctxRefs := by
  obtain ⟨v, hv, hcr, hq, hs⟩ := queue_new_ok_inv p s context device properties q s' h
  subst hq
  subst hs
  exact ⟨rfl, rfl, rfl⟩

/-- Witness for C5 at a concrete platform, state, context and device. -/
theorem queue_new_holds_context_and_device_witness :
    Queue.new samplePlatform sampleState sampleContext sampleDevice none
      = (Except.ok sampleQueue, sampleStateAfter) ∧
    sampleQueue.context_obj_core = Context.core sampleContext ∧
    sampleQueue.device = sampleDevice ∧
    sampleStateAfter.ctxRefs
      = (Context.core sampleContext).handle :: sampleState.ctxRefs :=
  ⟨by decide,
   queue_new_holds_context_and_device samplePlatform sampleState sampleContext
     sampleDevice none sampleQueue sampleStateAfter (by decide)⟩

/-- C6: `flush`, `finish`, `info` and the `Display` formatting path
(`fmt_info`) all take the handle by shared reference and hand it back with
every field — native queue handle, context handle, device, cached version —
unchanged, whatever the platform result is. -/
theorem queue_ops_leave_handle_unchanged (p : Platform) (s : PlatformState)
    (q : Queue) (k : CommandQueueInfo) :
    (Queue.flush p q).2 = q ∧
    (Queue.finish p q).2 = q ∧
    (Queue.info p s q k).2 = q ∧
    (Queue.fmt_info p s q).2 = q ∧
    (Queue.displayFmt p s q).2 = q :=
  ⟨rfl, rfl, rfl, rfl, rfl⟩

/-- Any labelled entry of a field list occurs inline in the text
`renderFields` produces for that list. -/
theorem renderFields_mem_occurs (fields : List (String × String))
    (lab v : String) (h : (lab, v) ∈ fields) :
    ∃ pre post, renderFields fields = pre ++ v ++ post := by
  induction fields with
  | nil => cases h
  | cons f rest ih =>
      obtain ⟨flab, fv⟩ := f
      cases rest with
      | nil =>
          rcases List.mem_cons.mp h with h1 | h2
          · injection h1 with h1a h1b
            subst h1a
            subst h1b
            exact ⟨lab ++ ": ", "",
                   by simp [renderFields, String.append_assoc]⟩
          · cases h2
      | cons g rest2 =>
          rcases List.mem_cons.mp h with h1 | h2
          · injection h1 with h1a h1b
            subst h1a
            subst h1b
            exact ⟨lab ++ ": ", ", " ++ renderFields (g :: rest2),
                   by simp [renderFields, String.append_assoc]⟩
          · obtain ⟨pre, post, heq⟩ := ih h2
            exact ⟨flab ++ ": " ++ fv ++ ", " ++ pre, post,
                   by simp [renderFields, heq, String.append_assoc]⟩

/-- C7: the `Display` implementation renders a summary built from info
queries for exactly the four kinds Context, Device, ReferenceCount and
Properties (in that order), and a failure of any one of those four inner
info queries is rendered inline as text in the produced summary —
formatting itself produces a string and no error. -/
theorem display_any_query_error_inline (p : Platform) (s : PlatformState)
    (q : Queue) (k : CommandQueueInfo) (e : OclError)
    (h : core.get_command_queue_info p s q.obj_core k
          = CommandQueueInfoResult.error e) :
    (Queue.fmt_fields p s q).map Prod.fst
      = ["Context", "Device", "ReferenceCount", "Properties"] ∧
    occursIn (CommandQueueInfoResult.debugStr (CommandQueueInfoResult.error e))
      (Queue.displayFmt p s q).1 := by
  refine ⟨rfl, ?_⟩
  have hmem : ∃ lab,
      (lab, CommandQueueInfoResult.debugStr (CommandQueueInfoResult.error e))
        ∈ (Queue.fmt_fields p s q).map (fun f => (f.1, f.2.debugStr)) := by
    cases k with
    | context =>
        exact ⟨"Context", by simp [Queue.fmt_fields, Queue.info, h]⟩
    | device =>
        exact ⟨"Device", by simp [Queue.fmt_fields, Queue.info, h]⟩
    | referenceCount =>
        exact ⟨"ReferenceCount", by simp [Queue.fmt_fields, Queue.info, h]⟩
    | properties =>
        exact ⟨"Properties", by simp [Queue.fmt_fields, Queue.info, h]⟩
  obtain ⟨lab, hmem⟩ := hmem
  obtain ⟨pre, post, heq⟩ :=
    renderFields_mem_occurs
      ((Queue.fmt_fields p s q).map (fun f => (f.1, f.2.debugStr)))
      lab (CommandQueueInfoResult.debugStr (CommandQueueInfoResult.error e)) hmem
  refine ⟨"Queue" ++ " \x7b " ++ pre, post ++ " \x7d", ?_⟩
  simp only [Queue.displayFmt, Queue.fmt_info, debugStructRender]
  rw [heq]
  simp [String.append_assoc]

/-- Witness for C7: a platform whose info queries fail with a communication
error; a failing Device query (a non-Context kind) has its error text
rendered inline in the display string. -/
theorem display_any_query_error_inline_witness :
    core.get_command_queue_info errInfoPlatform sampleState sampleQueue.obj_core
        CommandQueueInfo.device
      = CommandQueueInfoResult.error ⟨"comm failure"⟩ ∧
    ((Queue.fmt_fields errInfoPlatform sampleState sampleQueue).map Prod.fst
        = ["Context", "Device", "ReferenceCount", "Properties"] ∧
     occursIn
       (CommandQueueInfoResult.debugStr (CommandQueueInfoResult.error ⟨"comm failure"⟩))
       (Queue.displayFmt errInfoPlatform sampleState sampleQueue).1) :=
  ⟨by decide,
   display_any_query_error_inline errInfoPlatform sampleState sampleQueue
     CommandQueueInfo.device ⟨"comm failure"⟩ (by decide)⟩

/-- C8: the accessors `core()`, `context_core()`, `device()` and
`device_version()` take no platform or state argument at all — each is a
pure read returning exactly the field stored in the handle at
construction. -/
theorem accessors_pure_reads (q : Queue) :
    Queue.core q = q.obj_core ∧
    Queue.context_core q = q.context_obj_core ∧
    Queue.device' q = q.device ∧
    Queue.device_version' q = q.device_version :=
  ⟨rfl, rfl, rfl, rfl⟩

/-- C9: for a queue built by `Queue::new`, an info query of kind Context on
the resulting platform state (absent a communication failure) returns
exactly the handle's own cached `context_core()` reference, and an info
query of kind Device returns the id of the cached `device()` descriptor. -/
theorem info_matches_cached_context_device (p : Platform) (s : PlatformState)
    (context : Context) (device : Device)
    (properties : Option CommandQueueProperties) (q : Queue) (s' : PlatformState)
    (h : Queue.new p s context device properties = (Except.ok q, s'))
    (hc : p.infoErr (Queue.core q).handle CommandQueueInfo.context = none)
    (hd : p.infoErr (Queue.core q).handle CommandQueueInfo.device = none) :
    (Queue.info p s' q CommandQueueInfo.context).1
      = CommandQueueInfoResult.context (Queue.context_core q) ∧
    (Queue.info p s' q CommandQueueInfo.device).1
      = CommandQueueInfoResult.device (Queue.device' q).id := by
  obtain ⟨v, hv, hcr, hq, hs⟩ := queue_new_ok_inv p s context device properties q s' h
  subst hq
  subst hs
  simp [Queue.core] at hc hd
  simp [Queue.info, core.get_command_queue_info, hc, hd, lookupQueue,
        Queue.context_core, Queue.device']

/-- Witness for C9 at a concrete successful construction. -/
theorem info_matches_cached_context_device_witness :
    Queue.new samplePlatform sampleState sampleContext sampleDevice none
      = (Except.ok sampleQueue, sampleStateAfter) ∧
    (Queue.info samplePlatform sampleStateAfter sampleQueue CommandQueueInfo.context).1
      = CommandQueueInfoResult.context (Queue.context_core sampleQueue) ∧
    (Queue.info samplePlatform sampleStateAfter sampleQueue CommandQueueInfo.device).1
      = CommandQueueInfoResult.device (Queue.device' sampleQueue).id :=
  ⟨by decide,
   info_matches_cached_context_device samplePlatform sampleState sampleContext
     sampleDevice none sampleQueue sampleStateAfter (by decide) (by decide) (by decide)⟩

/-- C10: the deprecated accessor `core_as_ref()`, the current accessor
`core()`, `AsRef::as_ref()` and `Deref::deref()` all return the same stored
native queue handle (the `obj_core` field) — legacy and current access paths
are interchangeable. -/
theorem access_paths_interchangeable (q : Queue) :
    Queue.core_as_ref q = q.obj_core ∧
    Queue.core q = q.obj_core ∧
    Queue.as_ref q = q.obj_core ∧
    Queue.deref q = q.obj_core :=
  ⟨rfl, rfl, rfl, rfl⟩
